import Mathlib

/-!
Shallow embedding of `src/example/cell/power_saving/cell_power_saving_3gpp_main.c`
(the ubxlib 3GPP power-saving example).

The example drives one negotiation session against the cellular library:
it initialises the port and network layers, adds a network, registers the
agreement callback, configures the RAT, requests 3GPP power saving,
optionally reboots, brings the network up, polls the agreement flag in a
bounded loop, takes the network down and deinitialises.

External collaborator results (`uCellCfgGetRat`, `uCellCfgSetRatRank`,
`uCellPwrSetRequested3gppPowerSaving`, `uCellPwrRebootIsRequired`,
`uNetworkUp`) are captured in an environment record, together with the
schedule of asynchronous callback deliveries.  The session function returns
the final value of the `g3gppPowerSavingSet` flag, the loop counter `x`,
the number of `uPortTaskBlock` suspend cycles performed, the session
outcome and the trace of collaborator calls made.
-/

namespace CellPowerSaving3gpp

/-- `ACTIVE_TIME_SECONDS` from the source (default, line 83). -/
def ACTIVE_TIME_SECONDS : Int := 60

/-- `PERIODIC_WAKEUP_SECONDS` from the source (default, line 92): `3600 * 4`. -/
def PERIODIC_WAKEUP_SECONDS : Int := 3600 * 4

/-- One delivery of the 3GPP power-saving agreement callback: the arguments
`onNotOff`, `activeTimeSeconds`, `periodicWakeupSeconds` passed by the
network library to `callback` (lines 169-171). -/
structure Delivery where
  onNotOff : Bool
  activeTimeSeconds : Int
  periodicWakeupSeconds : Int
deriving Repr, DecidableEq

/-- The body of the static function `callback` (lines 169-184) acting on the
flag `g3gppPowerSavingSet`: the flag is set to true when the delivery reports
power saving on with both timers at least the requested values, and is left
unchanged otherwise. -/
def callback (flag : Bool) (d : Delivery) : Bool :=
  if d.onNotOff && decide (ACTIVE_TIME_SECONDS ≤ d.activeTimeSeconds)
      && decide (PERIODIC_WAKEUP_SECONDS ≤ d.periodicWakeupSeconds) then
    true
  else
    flag

/-- A delivery qualifies when it satisfies the condition at lines 180-181. -/
def qualifies (d : Delivery) : Bool :=
  d.onNotOff && decide (ACTIVE_TIME_SECONDS ≤ d.activeTimeSeconds)
    && decide (PERIODIC_WAKEUP_SECONDS ≤ d.periodicWakeupSeconds)

/-- Process a sequence of callback deliveries, threading the flag. -/
def deliverAll (flag : Bool) (ds : List Delivery) : Bool :=
  ds.foldl callback flag

/-- The collaborator calls made by the example, in order. -/
inductive Call where
  | uPortInit
  | uNetworkInit
  | uNetworkAdd
  | uCellPwrSet3gppPowerSavingCallback
  | uCellCfgGetRat
  | uCellCfgSetRatRank
  | uCellPwrSetRequested3gppPowerSaving
  | uCellPwrRebootIsRequired
  | uCellPwrReboot
  | uNetworkUp
  | uNetworkDown
  | uNetworkDeinit
  | uPortDeinit
deriving Repr, DecidableEq

/-- The session outcome, following the spec taxonomy: `RatError` when the
RAT rank change is rejected (line 215), `UnsupportedError` when the power
saving request returns nonzero (line 259), `NetworkBringUpError` when
`uNetworkUp` returns nonzero (line 256), `Agreed` when the flag is set at
loop exit (line 247), `TimedOut` otherwise (line 249). -/
inductive Outcome where
  | Agreed
  | TimedOut
  | NetworkBringUpError
  | UnsupportedError
  | RatError
deriving Repr, DecidableEq

/-- Environment: the results returned by each collaborator call, and the
schedule of callback deliveries.  `preDeliveries` arrive before the wait
loop is first checked, `sched k` arrive during the `k`-th suspend cycle
(`uPortTaskBlock(1000)`), and `postDeliveries` arrive after the loop has
exited but before teardown. -/
structure Env where
  getRatResult : Int
  setRatRankResult : Int
  setRequestedResult : Int
  rebootRequiredResult : Bool
  networkUpResult : Int
  preDeliveries : List Delivery
  sched : Nat → List Delivery
  postDeliveries : List Delivery

/-- The `onMyRat` flag after the RAT configuration step (lines 196, 213-217):
initially true, set false exactly when the queried RAT differs from the
desired RAT and `uCellCfgSetRatRank` returns nonzero. -/
def onMyRat (myRat : Int) (env : Env) : Bool :=
  if env.getRatResult ≠ myRat then
    if env.setRatRankResult ≠ 0 then false else true
  else true

/-- The wait loop at lines 241-244:
`while (!g3gppPowerSavingSet && (x < 30)) { uPortTaskBlock(1000); x++; }`.
Returns the flag at loop exit, the final value of `x`, and the number of
`uPortTaskBlock` calls performed.  `t` indexes the delivery schedule. -/
def waitLoop (env : Env) (flag : Bool) (x : Int) (t : Nat) : Bool × Int × Nat :=
  if h : flag = false ∧ x < 30 then
    let flag' := deliverAll flag (env.sched t)
    let r := waitLoop env flag' (x + 1) (t + 1)
    (r.1, r.2.1, r.2.2 + 1)
  else
    (flag, x, 0)
termination_by (30 - x).toNat
decreasing_by omega

/-- Result of one session of `exampleCellPowerSaving3gpp`. -/
structure SessionResult where
  trace : List Call
  flag : Bool
  x : Int
  blockCount : Nat
  outcome : Outcome
deriving Repr, DecidableEq

/-- The fixed opening of every session (lines 200-213): `uPortInit`,
`uNetworkInit`, `uNetworkAdd`, `uCellPwrSet3gppPowerSavingCallback`, then the
query `uCellCfgGetRat`. -/
def baseTrace : List Call :=
  [Call.uPortInit, Call.uNetworkInit, Call.uNetworkAdd,
   Call.uCellPwrSet3gppPowerSavingCallback, Call.uCellCfgGetRat]

/-- The RAT rank-change call (line 214), made exactly when the queried RAT
differs from the desired one (line 213). -/
def ratRankTrace (myRat : Int) (env : Env) : List Call :=
  if env.getRatResult ≠ myRat then [Call.uCellCfgSetRatRank] else []

/-- The body of `exampleCellPowerSaving3gpp` (lines 193-269), excluding the
conditionally-compiled internal test-automation cleanup (lines 271-291).
`myRat` is the compile-time constant `MY_RAT` (overridable, line 103). -/
def session (myRat : Int) (env : Env) : SessionResult :=
  let tRat := baseTrace ++ ratRankTrace myRat env
  if onMyRat myRat env then
    let x := env.setRequestedResult
    let tReq := tRat ++ [Call.uCellPwrSetRequested3gppPowerSaving]
    if x = 0 then
      let tReboot := tReq ++ [Call.uCellPwrRebootIsRequired] ++
        (if env.rebootRequiredResult then [Call.uCellPwrReboot] else [])
      let tUp := tReboot ++ [Call.uNetworkUp]
      if env.networkUpResult = 0 then
        let r := waitLoop env (deliverAll false env.preDeliveries) x 0
        { trace := tUp ++ [Call.uNetworkDown, Call.uNetworkDeinit, Call.uPortDeinit],
          flag := deliverAll r.1 env.postDeliveries,
          x := r.2.1,
          blockCount := r.2.2,
          outcome := if r.1 then Outcome.Agreed else Outcome.TimedOut }
      else
        { trace := tUp ++ [Call.uNetworkDeinit, Call.uPortDeinit],
          flag := deliverAll (deliverAll false env.preDeliveries) env.postDeliveries,
          x := x,
          blockCount := 0,
          outcome := Outcome.NetworkBringUpError }
    else
      { trace := tReq ++ [Call.uNetworkDeinit, Call.uPortDeinit],
        flag := deliverAll (deliverAll false env.preDeliveries) env.postDeliveries,
        x := x,
        blockCount := 0,
        outcome := Outcome.UnsupportedError }
  else
    { trace := tRat ++ [Call.uNetworkDeinit, Call.uPortDeinit],
      flag := deliverAll (deliverAll false env.preDeliveries) env.postDeliveries,
      x := -1,
      blockCount := 0,
      outcome := Outcome.RatError }

/-- Count occurrences of a call in a trace. -/
def countCall (c : Call) : List Call → Nat
  | [] => 0
  | d :: l => (if d = c then 1 else 0) + countCall c l

/- ----------------------------------------------------------------
   Basic lemmas about the callback and the latch
   ---------------------------------------------------------------- -/

lemma callback_eq (flag : Bool) (d : Delivery) :
    callback flag d = (flag || qualifies d) := by
  simp only [callback, qualifies]
  by_cases h : (d.onNotOff && decide (ACTIVE_TIME_SECONDS ≤ d.activeTimeSeconds)
      && decide (PERIODIC_WAKEUP_SECONDS ≤ d.periodicWakeupSeconds)) = true
  · simp [h]
  · simp [h, Bool.eq_false_iff.mpr h]

lemma deliverAll_eq (flag : Bool) (ds : List Delivery) :
    deliverAll flag ds = (flag || ds.any qualifies) := by
  induction ds generalizing flag with
  | nil => simp [deliverAll]
  | cons d ds ih =>
    simp only [deliverAll, List.foldl_cons, List.any_cons]
    rw [show List.foldl callback (callback flag d) ds = deliverAll (callback flag d) ds from rfl]
    rw [ih, callback_eq, Bool.or_assoc]

lemma deliverAll_true (ds : List Delivery) : deliverAll true ds = true := by
  simp [deliverAll_eq]

lemma qualifies_iff (d : Delivery) :
    qualifies d = true ↔
      d.onNotOff = true ∧ ACTIVE_TIME_SECONDS ≤ d.activeTimeSeconds ∧
        PERIODIC_WAKEUP_SECONDS ≤ d.periodicWakeupSeconds := by
  simp [qualifies, and_assoc]

/- ----------------------------------------------------------------
   Lemmas about the wait loop
   ---------------------------------------------------------------- -/

lemma waitLoop_step (env : Env) (flag : Bool) (x : Int) (t : Nat)
    (h : flag = false ∧ x < 30) :
    waitLoop env flag x t =
      ((waitLoop env (deliverAll flag (env.sched t)) (x + 1) (t + 1)).1,
       (waitLoop env (deliverAll flag (env.sched t)) (x + 1) (t + 1)).2.1,
       (waitLoop env (deliverAll flag (env.sched t)) (x + 1) (t + 1)).2.2 + 1) := by
  rw [waitLoop]
  simp [h]

lemma waitLoop_exit (env : Env) (flag : Bool) (x : Int) (t : Nat)
    (h : ¬(flag = false ∧ x < 30)) :
    waitLoop env flag x t = (flag, x, 0) := by
  rw [waitLoop]
  simp [h]

lemma waitLoop_never (env : Env) (hs : ∀ k, deliverAll false (env.sched k) = false) :
    ∀ (n : Nat), n ≤ 30 → ∀ (t : Nat),
      waitLoop env false (30 - (n : Int)) t = (false, 30, n) := by
  intro n
  induction n with
  | zero =>
    intro _ t
    rw [waitLoop_exit]
    · norm_num
    · simp
  | succ n ih =>
    intro hn t
    rw [waitLoop_step]
    · rw [hs t]
      have hx : (30 : Int) - ((n + 1 : Nat) : Int) + 1 = 30 - (n : Int) := by
        push_cast; ring
      rw [hx, ih (by omega) (t + 1)]
    · refine ⟨rfl, ?_⟩
      push_cast
      omega

lemma waitLoop_agreeAux (env : Env) :
    ∀ (m : Nat), ∀ (j t : Nat), j + m < 30 →
      (∀ k, k < m → deliverAll false (env.sched (t + k)) = false) →
      deliverAll false (env.sched (t + m)) = true →
      waitLoop env false ((j : Nat) : Int) t =
        (true, ((j : Nat) : Int) + (m : Nat) + 1, m + 1) := by
  intro m
  induction m with
  | zero =>
    intro j t hj _ h2
    rw [waitLoop_step]
    · have h20 : deliverAll false (env.sched t) = true := by simpa using h2
      rw [h20, waitLoop_exit]
      · norm_num
      · simp
    · refine ⟨rfl, ?_⟩
      omega
  | succ m ih =>
    intro j t hj h1 h2
    rw [waitLoop_step]
    · have h10 : deliverAll false (env.sched t) = false := by
        simpa using h1 0 (Nat.succ_pos m)
      rw [h10]
      have hrec := ih (j + 1) (t + 1) (by omega)
        (fun k hk => by rw [show t + 1 + k = t + (k + 1) by omega]; exact h1 (k + 1) (by omega))
        (by rw [show t + 1 + m = t + (m + 1) by omega]; exact h2)
      rw [show ((j : Nat) : Int) + 1 = (((j + 1 : Nat) : Nat) : Int) by push_cast; ring]
      rw [hrec]
      refine congrArg _ ?_
      refine congrArg (fun z => (z, m + 1 + 1)) ?_
      push_cast
      ring
    · refine ⟨rfl, ?_⟩
      omega

/- ----------------------------------------------------------------
   Lemmas about the RAT configuration step
   ---------------------------------------------------------------- -/

lemma onMyRat_true (myRat : Int) (env : Env)
    (h : env.getRatResult = myRat ∨ env.setRatRankResult = 0) :
    onMyRat myRat env = true := by
  rcases h with h | h
  · simp [onMyRat, h]
  · by_cases h2 : env.getRatResult = myRat <;> simp [onMyRat, h, h2]

lemma onMyRat_false (myRat : Int) (env : Env)
    (h1 : env.getRatResult ≠ myRat) (h2 : env.setRatRankResult ≠ 0) :
    onMyRat myRat env = false := by
  simp [onMyRat, h1, h2]

/- ----------------------------------------------------------------
   Claims
   ---------------------------------------------------------------- -/

lemma onMyRat_eq_false_iff (myRat : Int) (env : Env) :
    onMyRat myRat env = false ↔
      env.getRatResult ≠ myRat ∧ env.setRatRankResult ≠ 0 := by
  by_cases h1 : env.getRatResult = myRat <;> by_cases h2 : env.setRatRankResult = 0 <;>
  simp [onMyRat, h1, h2]

lemma deliverAll_false_of (ds : List Delivery) (h : ∀ d ∈ ds, qualifies d = false) :
    deliverAll false ds = false := by
  rw [deliverAll_eq]
  simp only [Bool.false_or, List.any_eq_false]
  intro d hd
  simp [h d hd]

/-- C1: over any sequence of agreement-callback deliveries, the latch
`g3gppPowerSavingSet` ends up set if and only if at least one delivery
reports enabled with active time ≥ 60 and periodic wake-up ≥ 14400; a
delivery failing any of the three conditions never sets the latch. -/
theorem claim1_latch_iff_qualifying_delivery (ds : List Delivery) :
    (deliverAll false ds = true ↔
      ∃ d ∈ ds, d.onNotOff = true ∧ ACTIVE_TIME_SECONDS ≤ d.activeTimeSeconds ∧
        PERIODIC_WAKEUP_SECONDS ≤ d.periodicWakeupSeconds) ∧
    (∀ (flag : Bool) (d : Delivery),
      ¬(d.onNotOff = true ∧ ACTIVE_TIME_SECONDS ≤ d.activeTimeSeconds ∧
          PERIODIC_WAKEUP_SECONDS ≤ d.periodicWakeupSeconds) →
        callback flag d = flag) := by
  constructor
  · rw [deliverAll_eq]
    simp only [Bool.false_or, List.any_eq_true]
    constructor
    · rintro ⟨d, hd, hq⟩
      exact ⟨d, hd, (qualifies_iff d).mp hq⟩
    · rintro ⟨d, hd, hq⟩
      exact ⟨d, hd, (qualifies_iff d).mpr hq⟩
  · intro flag d hd
    rw [callback_eq]
    have : qualifies d = false := by
      cases hq : qualifies d
      · rfl
      · exact absurd ((qualifies_iff d).mp hq) hd
    simp [this]

/-- Witness for C1 at a concrete delivery sequence: a non-qualifying delivery
followed by a qualifying one sets the latch. -/
theorem claim1_witness :
    deliverAll false
      [{ onNotOff := false, activeTimeSeconds := 60, periodicWakeupSeconds := 14400 },
       { onNotOff := true, activeTimeSeconds := 60, periodicWakeupSeconds := 14400 }] = true :=
  (claim1_latch_iff_qualifying_delivery _).1.mpr
    ⟨{ onNotOff := true, activeTimeSeconds := 60, periodicWakeupSeconds := 14400 },
      by simp, rfl, by decide, by decide⟩

/- ----------------------------------------------------------------
   Per-branch characterisation of the session
   ---------------------------------------------------------------- -/

lemma session_ratError_eq (myRat : Int) (env : Env)
    (h1 : env.getRatResult ≠ myRat) (h2 : env.setRatRankResult ≠ 0) :
    session myRat env =
      { trace := baseTrace ++ [Call.uCellCfgSetRatRank, Call.uNetworkDeinit, Call.uPortDeinit],
        flag := deliverAll (deliverAll false env.preDeliveries) env.postDeliveries,
        x := -1,
        blockCount := 0,
        outcome := Outcome.RatError } := by
  simp [session, onMyRat, ratRankTrace, h1, h2]

lemma session_unsupported_eq (myRat : Int) (env : Env)
    (h1 : onMyRat myRat env = true) (h2 : env.setRequestedResult ≠ 0) :
    session myRat env =
      { trace := baseTrace ++ ratRankTrace myRat env ++
          [Call.uCellPwrSetRequested3gppPowerSaving, Call.uNetworkDeinit, Call.uPortDeinit],
        flag := deliverAll (deliverAll false env.preDeliveries) env.postDeliveries,
        x := env.setRequestedResult,
        blockCount := 0,
        outcome := Outcome.UnsupportedError } := by
  simp [session, h1, h2]

lemma session_bringUpError_eq (myRat : Int) (env : Env)
    (h1 : onMyRat myRat env = true) (h2 : env.setRequestedResult = 0)
    (h3 : env.networkUpResult ≠ 0) :
    session myRat env =
      { trace := baseTrace ++ ratRankTrace myRat env ++
          [Call.uCellPwrSetRequested3gppPowerSaving, Call.uCellPwrRebootIsRequired] ++
          (if env.rebootRequiredResult then [Call.uCellPwrReboot] else []) ++
          [Call.uNetworkUp, Call.uNetworkDeinit, Call.uPortDeinit],
        flag := deliverAll (deliverAll false env.preDeliveries) env.postDeliveries,
        x := 0,
        blockCount := 0,
        outcome := Outcome.NetworkBringUpError } := by
  simp [session, h1, h2, h3]

lemma session_loop_eq (myRat : Int) (env : Env)
    (h1 : onMyRat myRat env = true) (h2 : env.setRequestedResult = 0)
    (h3 : env.networkUpResult = 0) :
    session myRat env =
      { trace := baseTrace ++ ratRankTrace myRat env ++
          [Call.uCellPwrSetRequested3gppPowerSaving, Call.uCellPwrRebootIsRequired] ++
          (if env.rebootRequiredResult then [Call.uCellPwrReboot] else []) ++
          [Call.uNetworkUp, Call.uNetworkDown, Call.uNetworkDeinit, Call.uPortDeinit],
        flag := deliverAll
          (waitLoop env (deliverAll false env.preDeliveries) 0 0).1 env.postDeliveries,
        x := (waitLoop env (deliverAll false env.preDeliveries) 0 0).2.1,
        blockCount := (waitLoop env (deliverAll false env.preDeliveries) 0 0).2.2,
        outcome := if (waitLoop env (deliverAll false env.preDeliveries) 0 0).1 then
          Outcome.Agreed else Outcome.TimedOut } := by
  simp [session, h1, h2, h3]

/-- C2: in every execution, whichever branch is taken, the teardown pair
`uNetworkDeinit` / `uPortDeinit` appears exactly once in the call trace. -/
theorem claim2_teardown_exactly_once (myRat : Int) (env : Env) :
    countCall Call.uNetworkDeinit (session myRat env).trace = 1 ∧
    countCall Call.uPortDeinit (session myRat env).trace = 1 := by
  by_cases h1 : env.getRatResult = myRat <;>
  by_cases h2 : env.setRatRankResult = 0 <;>
  by_cases h3 : env.setRequestedResult = 0 <;>
  by_cases h4 : env.rebootRequiredResult = true <;>
  by_cases h5 : env.networkUpResult = 0 <;>
  simp [session, onMyRat, ratRankTrace, baseTrace, countCall, h1, h2, h3, h4, h5]

/-- Claim C5: whenever the queried RAT differs from the desired one and the
rank change fails, `uCellPwrSetRequested3gppPowerSaving` is never invoked and
the session proceeds directly to teardown with outcome `RatError`. -/
theorem claim5_rat_failure_skips_request (myRat : Int) (env : Env)
    (h1 : env.getRatResult ≠ myRat) (h2 : env.setRatRankResult ≠ 0) :
    Call.uCellPwrSetRequested3gppPowerSaving ∉ (session myRat env).trace ∧
    (session myRat env).outcome = Outcome.RatError ∧
    (session myRat env).trace =
      baseTrace ++ [Call.uCellCfgSetRatRank, Call.uNetworkDeinit, Call.uPortDeinit] := by
  rw [session_ratError_eq myRat env h1 h2]
  refine ⟨?_, rfl, rfl⟩
  simp [baseTrace]

/-- Concrete environment: every collaborator call succeeds, no reboot is
required, and no callback delivery ever arrives. -/
def envQuiet : Env :=
  { getRatResult := 7, setRatRankResult := 0, setRequestedResult := 0,
    rebootRequiredResult := false, networkUpResult := 0, preDeliveries := [],
    sched := fun _ => [], postDeliveries := [] }

/-- Concrete environment: the queried RAT (8) differs from the desired RAT
(7) and the rank change fails with result 1. -/
def envRatFail : Env :=
  { getRatResult := 8, setRatRankResult := 1, setRequestedResult := 0,
    rebootRequiredResult := false, networkUpResult := 0, preDeliveries := [],
    sched := fun _ => [], postDeliveries := [] }

/-- Concrete environment: the RAT is already right but the power-saving
request fails with result 1. -/
def envUnsupported : Env :=
  { getRatResult := 7, setRatRankResult := 0, setRequestedResult := 1,
    rebootRequiredResult := false, networkUpResult := 0, preDeliveries := [],
    sched := fun _ => [], postDeliveries := [] }

/-- Concrete environment: everything succeeds up to `uNetworkUp`, which
fails with result -1. -/
def envUpFail : Env :=
  { getRatResult := 7, setRatRankResult := 0, setRequestedResult := 0,
    rebootRequiredResult := false, networkUpResult := -1, preDeliveries := [],
    sched := fun _ => [], postDeliveries := [] }

/-- Concrete environment: everything succeeds and a single qualifying
delivery arrives during the fifth suspend cycle. -/
def envAgree5 : Env :=
  { getRatResult := 7, setRatRankResult := 0, setRequestedResult := 0,
    rebootRequiredResult := false, networkUpResult := 0, preDeliveries := [],
    sched := fun k => if k = 4 then
      [{ onNotOff := true, activeTimeSeconds := 60, periodicWakeupSeconds := 14400 }]
      else [],
    postDeliveries := [] }

/-- Witness for C5 at a concrete environment where the RAT query returns 8
against a desired RAT of 7 and the rank change returns 1. -/
theorem claim5_witness :
    Call.uCellPwrSetRequested3gppPowerSaving ∉ (session 7 envRatFail).trace ∧
    (session 7 envRatFail).outcome = Outcome.RatError :=
  ⟨(claim5_rat_failure_skips_request 7 envRatFail (by decide) (by decide)).1,
   (claim5_rat_failure_skips_request 7 envRatFail (by decide) (by decide)).2.1⟩

/-- Claim C7: when `uNetworkUp` returns nonzero (in a session that reaches
it), no suspend cycle is performed (the agreement wait is never attempted)
and teardown still runs. -/
theorem claim7_bringUp_failure_no_wait (myRat : Int) (env : Env)
    (h1 : onMyRat myRat env = true) (h2 : env.setRequestedResult = 0)
    (h3 : env.networkUpResult ≠ 0) :
    (session myRat env).blockCount = 0 ∧
    (session myRat env).outcome = Outcome.NetworkBringUpError ∧
    Call.uNetworkDeinit ∈ (session myRat env).trace ∧
    Call.uPortDeinit ∈ (session myRat env).trace := by
  rw [session_bringUpError_eq myRat env h1 h2 h3]
  refine ⟨rfl, rfl, ?_, ?_⟩ <;> simp

/-- Witness for C7 at a concrete environment where `uNetworkUp` returns -1. -/
theorem claim7_witness :
    (session 7 envUpFail).blockCount = 0 ∧
    (session 7 envUpFail).outcome = Outcome.NetworkBringUpError :=
  ⟨(claim7_bringUp_failure_no_wait 7 envUpFail (by decide) (by decide) (by decide)).1,
   (claim7_bringUp_failure_no_wait 7 envUpFail (by decide) (by decide) (by decide)).2.1⟩

/-- Claim C8: the RAT configuration step queries the current RAT first (the
trace always begins with `baseTrace`, which ends in `uCellCfgGetRat`), the
rank change is attempted if and only if the queried RAT differs from the
desired one, and when they already agree the session proceeds as
configured (`onMyRat` stays true). -/
theorem claim8_configureRat_query_then_rank (myRat : Int) (env : Env) :
    (Call.uCellCfgSetRatRank ∈ (session myRat env).trace ↔
      env.getRatResult ≠ myRat) ∧
    (∃ l, (session myRat env).trace = baseTrace ++ l) ∧
    (env.getRatResult = myRat → onMyRat myRat env = true) := by
  refine ⟨?_, ?_, fun h => onMyRat_true myRat env (Or.inl h)⟩
  · by_cases h1 : env.getRatResult = myRat <;>
    by_cases h2 : env.setRatRankResult = 0 <;>
    by_cases h3 : env.setRequestedResult = 0 <;>
    by_cases h4 : env.rebootRequiredResult = true <;>
    by_cases h5 : env.networkUpResult = 0 <;>
    simp [session, onMyRat, ratRankTrace, baseTrace, h1, h2, h3, h4, h5]
  · by_cases h1 : env.getRatResult = myRat <;>
    by_cases h2 : env.setRatRankResult = 0 <;>
    by_cases h3 : env.setRequestedResult = 0 <;>
    by_cases h4 : env.rebootRequiredResult = true <;>
    by_cases h5 : env.networkUpResult = 0 <;>
    · simp only [session, onMyRat, ratRankTrace, h1, h2, h3, h4, h5, if_true, if_false,
        ite_true, ite_false, ne_eq, not_true_eq_false, not_false_eq_true, List.append_assoc]
      exact ⟨_, rfl⟩

/-- Witness for C8: with the queried RAT equal to the desired RAT, the rank
change does not appear in the trace. -/
theorem claim8_witness :
    Call.uCellCfgSetRatRank ∉ (session 7 envUnsupported).trace := by
  intro hmem
  exact absurd ((claim8_configureRat_query_then_rank 7 envUnsupported).1.mp hmem)
    (by simp [envUnsupported])

/-- Claim C10: `uNetworkDown` is invoked if and only if `uNetworkUp` was
invoked in the session and returned 0; when invoked it appears exactly once,
immediately after `uNetworkUp` and before the teardown pair. -/
theorem claim10_networkDown_iff_up_ok (myRat : Int) (env : Env) :
    (Call.uNetworkDown ∈ (session myRat env).trace ↔
      Call.uNetworkUp ∈ (session myRat env).trace ∧ env.networkUpResult = 0) ∧
    (Call.uNetworkDown ∈ (session myRat env).trace →
      countCall Call.uNetworkDown (session myRat env).trace = 1) ∧
    (Call.uNetworkDown ∈ (session myRat env).trace →
      ∃ l, (session myRat env).trace = l ++
        [Call.uNetworkUp, Call.uNetworkDown, Call.uNetworkDeinit, Call.uPortDeinit]) := by
  refine ⟨?_, ?_, ?_⟩
  · by_cases h1 : env.getRatResult = myRat <;>
    by_cases h2 : env.setRatRankResult = 0 <;>
    by_cases h3 : env.setRequestedResult = 0 <;>
    by_cases h4 : env.rebootRequiredResult = true <;>
    by_cases h5 : env.networkUpResult = 0 <;>
    simp [session, onMyRat, ratRankTrace, baseTrace, h1, h2, h3, h4, h5]
  · by_cases h1 : env.getRatResult = myRat <;>
    by_cases h2 : env.setRatRankResult = 0 <;>
    by_cases h3 : env.setRequestedResult = 0 <;>
    by_cases h4 : env.rebootRequiredResult = true <;>
    by_cases h5 : env.networkUpResult = 0 <;>
    simp [session, onMyRat, ratRankTrace, baseTrace, countCall, h1, h2, h3, h4, h5]
  · intro hmem
    by_cases hOn : onMyRat myRat env = true
    · by_cases hq : env.setRequestedResult = 0
      · by_cases hn : env.networkUpResult = 0
        · refine ⟨baseTrace ++ ratRankTrace myRat env ++
            [Call.uCellPwrSetRequested3gppPowerSaving, Call.uCellPwrRebootIsRequired] ++
            (if env.rebootRequiredResult then [Call.uCellPwrReboot] else []), ?_⟩
          rw [session_loop_eq myRat env hOn hq hn]
        · rw [session_bringUpError_eq myRat env hOn hq hn] at hmem
          simp [baseTrace, ratRankTrace] at hmem
      · rw [session_unsupported_eq myRat env hOn hq] at hmem
        simp [baseTrace, ratRankTrace] at hmem
    · have hOn2 := (onMyRat_eq_false_iff myRat env).mp (by simpa using hOn)
      rw [session_ratError_eq myRat env hOn2.1 hOn2.2] at hmem
      simp [baseTrace] at hmem

/-- Witness for C10: in a session where everything succeeds, `uNetworkDown`
appears in the trace, exactly once. -/
theorem claim10_witness :
    countCall Call.uNetworkDown (session 7 envQuiet).trace = 1 :=
  (claim10_networkDown_iff_up_ok 7 envQuiet).2.1
    ((claim10_networkDown_iff_up_ok 7 envQuiet).1.mpr (by constructor <;> decide))

/-- Claim C6: the reboot-requirement query runs exactly in the sessions whose
power-saving request succeeds (and then after the request call), `uCellPwrReboot`
is invoked if and only if the query answers true, and when the request fails
neither the query nor the reboot appears in the trace. -/
theorem claim6_reboot_only_after_request_ok (myRat : Int) (env : Env) :
    ((Call.uCellPwrRebootIsRequired ∈ (session myRat env).trace ∨
      Call.uCellPwrReboot ∈ (session myRat env).trace) →
      onMyRat myRat env = true ∧ env.setRequestedResult = 0) ∧
    (onMyRat myRat env = true → env.setRequestedResult = 0 →
      Call.uCellPwrRebootIsRequired ∈ (session myRat env).trace ∧
      (Call.uCellPwrReboot ∈ (session myRat env).trace ↔
        env.rebootRequiredResult = true)) ∧
    (Call.uCellPwrRebootIsRequired ∈ (session myRat env).trace →
      ∃ l1 l2, (session myRat env).trace =
        l1 ++ Call.uCellPwrSetRequested3gppPowerSaving :: l2 ∧
        Call.uCellPwrRebootIsRequired ∈ l2) := by
  refine ⟨?_, ?_, ?_⟩
  · intro hmem
    by_cases hOn : onMyRat myRat env = true
    · refine ⟨hOn, ?_⟩
      by_cases hq : env.setRequestedResult = 0
      · exact hq
      · rw [session_unsupported_eq myRat env hOn hq] at hmem
        simp [baseTrace, ratRankTrace] at hmem
    · have hOn2 := (onMyRat_eq_false_iff myRat env).mp (by simpa using hOn)
      rw [session_ratError_eq myRat env hOn2.1 hOn2.2] at hmem
      rcases hmem with hmem | hmem <;> simp [baseTrace] at hmem
  · intro hOn hq
    by_cases hn : env.networkUpResult = 0
    · rw [session_loop_eq myRat env hOn hq hn]
      by_cases hb : env.rebootRequiredResult = true <;> simp [baseTrace, ratRankTrace, hb]
    · rw [session_bringUpError_eq myRat env hOn hq hn]
      by_cases hb : env.rebootRequiredResult = true <;> simp [baseTrace, ratRankTrace, hb]
  · intro hmem
    have hok : onMyRat myRat env = true ∧ env.setRequestedResult = 0 := by
      by_cases hOn : onMyRat myRat env = true
      · refine ⟨hOn, ?_⟩
        by_cases hq : env.setRequestedResult = 0
        · exact hq
        · rw [session_unsupported_eq myRat env hOn hq] at hmem
          simp [baseTrace, ratRankTrace] at hmem
      · have hOn2 := (onMyRat_eq_false_iff myRat env).mp (by simpa using hOn)
        rw [session_ratError_eq myRat env hOn2.1 hOn2.2] at hmem
        simp [baseTrace] at hmem
    refine ⟨baseTrace ++ ratRankTrace myRat env,
      Call.uCellPwrRebootIsRequired ::
        ((if env.rebootRequiredResult then [Call.uCellPwrReboot] else []) ++
         (if env.networkUpResult = 0 then
            [Call.uNetworkUp, Call.uNetworkDown, Call.uNetworkDeinit, Call.uPortDeinit]
          else [Call.uNetworkUp, Call.uNetworkDeinit, Call.uPortDeinit])), ?_, by simp⟩
    by_cases hn : env.networkUpResult = 0
    · rw [session_loop_eq myRat env hok.1 hok.2 hn]
      simp [hn]
    · rw [session_bringUpError_eq myRat env hok.1 hok.2 hn]
      simp [hn]

/-- Witness for C6: in a session where the request succeeds and no reboot is
required, the query appears and the reboot does not. -/
theorem claim6_witness :
    Call.uCellPwrRebootIsRequired ∈ (session 7 envQuiet).trace ∧
    Call.uCellPwrReboot ∉ (session 7 envQuiet).trace := by
  have h := (claim6_reboot_only_after_request_ok 7 envQuiet).2.1 (by decide) (by decide)
  exact ⟨h.1, fun hmem => by simpa [envQuiet] using h.2.mp hmem⟩

/-- Claim C9: the agreement latch is monotone: the callback never clears a
set latch, no sequence of further deliveries clears it, a session that ends
`Agreed` still has the latch set at teardown (even if later deliveries
report disagreeing values), and with no qualifying delivery at all the latch
— starting false — is still false at teardown, the callback being its only
writer in the workflow. -/
theorem claim9_latch_monotone (myRat : Int) (env : Env) :
    (∀ d : Delivery, callback true d = true) ∧
    (∀ ds : List Delivery, deliverAll true ds = true) ∧
    ((session myRat env).outcome = Outcome.Agreed → (session myRat env).flag = true) ∧
    ((∀ d ∈ env.preDeliveries, qualifies d = false) →
     (∀ k, ∀ d ∈ env.sched k, qualifies d = false) →
     (∀ d ∈ env.postDeliveries, qualifies d = false) →
      (session myRat env).flag = false) := by
  refine ⟨fun d => by rw [callback_eq]; simp, fun ds => deliverAll_true ds, ?_, ?_⟩
  · intro hout
    by_cases hOn : onMyRat myRat env = true
    · by_cases hq : env.setRequestedResult = 0
      · by_cases hn : env.networkUpResult = 0
        · rw [session_loop_eq myRat env hOn hq hn] at hout ⊢
          by_cases hw : (waitLoop env (deliverAll false env.preDeliveries) 0 0).1 = true
          · simp only [hw, deliverAll_true]
          · simp only [Bool.not_eq_true] at hw
            simp [hw] at hout
        · rw [session_bringUpError_eq myRat env hOn hq hn] at hout
          simp at hout
      · rw [session_unsupported_eq myRat env hOn hq] at hout
        simp at hout
    · have hOn2 := (onMyRat_eq_false_iff myRat env).mp (by simpa using hOn)
      rw [session_ratError_eq myRat env hOn2.1 hOn2.2] at hout
      simp at hout
  · intro hpre hsched hpost
    have hp : deliverAll false env.preDeliveries = false := deliverAll_false_of _ hpre
    have hpp : deliverAll (deliverAll false env.preDeliveries) env.postDeliveries = false := by
      rw [hp]
      exact deliverAll_false_of _ hpost
    by_cases hOn : onMyRat myRat env = true
    · by_cases hq : env.setRequestedResult = 0
      · by_cases hn : env.networkUpResult = 0
        · rw [session_loop_eq myRat env hOn hq hn]
          have hl := waitLoop_never env (fun k => deliverAll_false_of _ (hsched k))
            30 (by norm_num) 0
          norm_num at hl
          rw [hp, hl]
          exact deliverAll_false_of _ hpost
        · rw [session_bringUpError_eq myRat env hOn hq hn]
          exact hpp
      · rw [session_unsupported_eq myRat env hOn hq]
        exact hpp
    · have hOn2 := (onMyRat_eq_false_iff myRat env).mp (by simpa using hOn)
      rw [session_ratError_eq myRat env hOn2.1 hOn2.2]
      exact hpp

/-- Witness for C9: the callback leaves a set latch set even on a delivery
reporting power saving off. -/
theorem claim9_witness :
    callback true
      { onNotOff := false, activeTimeSeconds := 0, periodicWakeupSeconds := 0 } = true :=
  (claim9_latch_monotone 7 envQuiet).1
    { onNotOff := false, activeTimeSeconds := 0, periodicWakeupSeconds := 0 }

lemma deliverAll_true_of (ds : List Delivery) (h : ∃ d ∈ ds, qualifies d = true) :
    deliverAll false ds = true := by
  rw [deliverAll_eq]
  simp only [Bool.false_or, List.any_eq_true]
  exact h

/-- Claim C3: in a session that enters the wait loop (the power-saving
request returned 0, so the counter starts at 0) where the latch is never
set, the loop performs exactly 30 suspend cycles and the outcome is
`TimedOut`. -/
theorem claim3_timeout_after_30_cycles (myRat : Int) (env : Env)
    (h1 : onMyRat myRat env = true) (h2 : env.setRequestedResult = 0)
    (h3 : env.networkUpResult = 0)
    (h4 : ∀ d ∈ env.preDeliveries, qualifies d = false)
    (h5 : ∀ k, ∀ d ∈ env.sched k, qualifies d = false) :
    (session myRat env).blockCount = 30 ∧
    (session myRat env).outcome = Outcome.TimedOut := by
  rw [session_loop_eq myRat env h1 h2 h3]
  have hp : deliverAll false env.preDeliveries = false := deliverAll_false_of _ h4
  have hl := waitLoop_never env (fun k => deliverAll_false_of _ (h5 k)) 30 (by norm_num) 0
  norm_num at hl
  simp [hp, hl]

/-- Witness for C3: with no delivery ever arriving, the session blocks for
exactly 30 cycles and times out. -/
theorem claim3_witness :
    (session 7 envQuiet).blockCount = 30 ∧
    (session 7 envQuiet).outcome = Outcome.TimedOut :=
  claim3_timeout_after_30_cycles 7 envQuiet (by decide) (by decide) (by decide)
    (by simp [envQuiet]) (by intro k; simp [envQuiet])

/-- Claim C4: in a session that enters the wait loop with counter 0 where
the latch becomes true exactly during the fifth suspend cycle (no earlier
delivery qualifies, a delivery of the fifth cycle does), the loop performs
exactly 5 suspend cycles and the outcome is `Agreed`; re-running on the
identical timing yields the identical result, the session being a function
of its environment. -/
theorem claim4_agreed_after_5_cycles (myRat : Int) (env : Env)
    (h1 : onMyRat myRat env = true) (h2 : env.setRequestedResult = 0)
    (h3 : env.networkUpResult = 0)
    (h4 : ∀ d ∈ env.preDeliveries, qualifies d = false)
    (h5 : ∀ k, k < 4 → ∀ d ∈ env.sched k, qualifies d = false)
    (h6 : ∃ d ∈ env.sched 4, qualifies d = true) :
    (session myRat env).blockCount = 5 ∧
    (session myRat env).outcome = Outcome.Agreed ∧
    session myRat env = session myRat env := by
  refine ⟨?_, ?_, rfl⟩ <;>
  · rw [session_loop_eq myRat env h1 h2 h3]
    have hp : deliverAll false env.preDeliveries = false := deliverAll_false_of _ h4
    have hl := waitLoop_agreeAux env 4 0 0 (by norm_num)
      (fun k hk => by simpa using deliverAll_false_of _ (h5 k hk))
      (by simpa using deliverAll_true_of _ h6)
    norm_num at hl
    simp [hp, hl]

/-- Witness for C4: a qualifying delivery during the fifth suspend cycle
yields agreement after exactly 5 cycles. -/
theorem claim4_witness :
    (session 7 envAgree5).blockCount = 5 ∧
    (session 7 envAgree5).outcome = Outcome.Agreed :=
  ⟨(claim4_agreed_after_5_cycles 7 envAgree5 (by decide) (by decide) (by decide)
      (by simp [envAgree5])
      (by intro k hk
          have hne : k ≠ 4 := by omega
          simp [envAgree5, hne])
      ⟨{ onNotOff := true, activeTimeSeconds := 60, periodicWakeupSeconds := 14400 },
        by simp [envAgree5], by decide⟩).1,
   (claim4_agreed_after_5_cycles 7 envAgree5 (by decide) (by decide) (by decide)
      (by simp [envAgree5])
      (by intro k hk
          have hne : k ≠ 4 := by omega
          simp [envAgree5, hne])
      ⟨{ onNotOff := true, activeTimeSeconds := 60, periodicWakeupSeconds := 14400 },
        by simp [envAgree5], by decide⟩).2.1⟩

end CellPowerSaving3gpp
